import Mathlib

/-!
Verification of the CSV-to-aggregates core of the `dashsema` dashboard
(`src/main.py`): ingestion (`parse_contents` via `pd.read_csv`), the chart
aggregations (`atualizar_graficos`), the follow-up table
(`criar_tabela_followup`) and the dashboard callback (`update_dashboard`).
Timestamps are minutes since year 0 of a proleptic Gregorian calendar;
pandas columns are modelled as lists with `none` for NaN/NaT.
-/

namespace Dashsema

/-! ### Calendar arithmetic for `DD/MM/YYYY HH:MM` timestamps -/

def isLeap (y : Nat) : Bool := (y % 4 == 0 && y % 100 != 0) || (y % 400 == 0)

def monthLengths (leap : Bool) : List Nat :=
  [31, if leap then 29 else 28, 31, 30, 31, 30, 31, 31, 30, 31, 30, 31]

def daysInMonth (y m : Nat) : Nat := (monthLengths (isLeap y)).getD (m - 1) 0

def daysBeforeYear (y : Nat) : Nat :=
  365 * y + (y + 3) / 4 - (y + 99) / 100 + (y + 399) / 400

def daysBeforeMonth (leap : Bool) (m : Nat) : Nat :=
  ((monthLengths leap).take (m - 1)).sum

/-- Split a character list at every occurrence of `sep` (the semantics of
`str.split(sep)`). -/
def splitOnChar (sep : Char) : List Char → List (List Char)
  | [] => [[]]
  | c :: cs =>
    match splitOnChar sep cs with
    | [] => [[c]]
    | h :: t => if c = sep then [] :: h :: t else (c :: h) :: t

/-- The decimal value of an all-digit, non-empty character list. -/
def digitsToNat? (l : List Char) : Option Nat :=
  if !l.isEmpty && l.all Char.isDigit then
    some (l.foldl (fun n c => n * 10 + (c.toNat - 48)) 0)
  else none

/-- `str.strip()`: drop whitespace from both ends. -/
def trimChars (l : List Char) : List Char :=
  ((l.dropWhile Char.isWhitespace).reverse.dropWhile Char.isWhitespace).reverse

/-- Models `datetime.strptime` with format `%d/%m/%Y %H:%M` — the day-first
timestamp format configured for the source data. The result counts minutes
since year 0. -/
def parseTimestamp (s : String) : Option Nat :=
  match splitOnChar ' ' s.data with
  | [d, t] =>
    match splitOnChar '/' d, splitOnChar ':' t with
    | [ds, ms, ys], [hs, mis] => do
      let dd ← digitsToNat? ds
      let mm ← digitsToNat? ms
      let yy ← digitsToNat? ys
      let hh ← digitsToNat? hs
      let mi ← digitsToNat? mis
      if 1 ≤ mm ∧ mm ≤ 12 ∧ 1 ≤ dd ∧ dd ≤ daysInMonth yy mm ∧ hh < 24 ∧ mi < 60 then
        some (((daysBeforeYear yy + daysBeforeMonth (isLeap yy) mm + (dd - 1)) * 24 + hh) * 60
          + mi)
      else
        none
    | _, _ => none
  | _ => none

def findYearGo (n : Nat) : Nat → Nat
  | 0 => 0
  | y + 1 => if daysBeforeYear (y + 1) ≤ n then y + 1 else findYearGo n y

def findYear (n : Nat) : Nat := findYearGo n (n / 365 + 1)

def findMonthGo (leap : Bool) (dy : Nat) : Nat → Nat
  | 0 => 1
  | m + 1 => if daysBeforeMonth leap (m + 1) ≤ dy then m + 1 else findMonthGo leap dy m

def findMonth (leap : Bool) (dy : Nat) : Nat := findMonthGo leap dy 12

def pad (w n : Nat) : String :=
  let s := toString n
  String.join (List.replicate (w - s.length) "0") ++ s

/-- Models `strftime` with format `%d/%m/%Y %H:%M`, inverting
`parseTimestamp`. -/
def formatTimestamp (t : Nat) : String :=
  let mins := t % 60
  let hrs := t / 60 % 24
  let day := t / 1440
  let y := findYear day
  let dy := day - daysBeforeYear y
  let m := findMonth (isLeap y) dy
  let d := dy - daysBeforeMonth (isLeap y) m + 1
  pad 2 d ++ "/" ++ pad 2 m ++ "/" ++ pad 4 y ++ " " ++ pad 2 hrs ++ ":" ++ pad 2 mins

/-! ### DataFrames -/

/-- A pandas column: `S` an object (string) column with `none` for NaN, `T` a
datetime64 column with `none` for NaT, `N` a numeric column (values floored
to integer hours) with `none` for NaN. -/
inductive Col where
  | S : List (Option String) → Col
  | T : List (Option Nat) → Col
  | N : List (Option Int) → Col
deriving DecidableEq, Repr

abbrev DataFrame := List (String × Col)

instance {ε α : Type} [DecidableEq ε] [DecidableEq α] : DecidableEq (Except ε α) := fun x y =>
  match x, y with
  | .ok a, .ok b =>
    if h : a = b then isTrue (by rw [h]) else isFalse (fun hc => h (Except.ok.inj hc))
  | .error e, .error f =>
    if h : e = f then isTrue (by rw [h]) else isFalse (fun hc => h (Except.error.inj hc))
  | .ok _, .error _ => isFalse (fun hc => Except.noConfusion hc)
  | .error _, .ok _ => isFalse (fun hc => Except.noConfusion hc)

def getCol (df : DataFrame) (n : String) : Option Col :=
  (df.find? (fun p => p.1 == n)).map (fun p => p.2)

/-- `df[n] = c`: replaces the column when it exists, otherwise appends it at
the end, as pandas column assignment does. -/
def setCol (df : DataFrame) (n : String) (c : Col) : DataFrame :=
  if df.any (fun p => p.1 == n) then
    df.map (fun p => if p.1 == n then (n, c) else p)
  else df ++ [(n, c)]

def colLen : Col → Nat
  | .S l => l.length
  | .T l => l.length
  | .N l => l.length

/-- `len(df)`: the number of rows. -/
def nrows (df : DataFrame) : Nat :=
  match df with
  | [] => 0
  | c :: _ => colLen c.2

def colToStrings : Col → List (Option String)
  | .S l => l
  | .T l => l.map (fun c => c.map (fun t => formatTimestamp t))
  | .N l => l.map (fun c => c.map (fun n => toString n))

/-! ### Ingestion -/

/-- The decoded upload. `parse_contents` in the source splits off the base64
body of the `contents` string and decodes it to CSV text; that transport is a
bijection on well-formed uploads, so the payload is modelled directly as the
decoded header row and data rows. An empty cell is pandas NaN. -/
structure Payload where
  header : List String
  rows : List (List String)
deriving DecidableEq, Repr

def cellToOpt (s : String) : Option String := if s = "" then none else some s

def colCells (p : Payload) (i : Nat) : List (Option String) :=
  p.rows.map (fun r => cellToOpt (r.getD i ""))

/-- Models the best-effort date conversion `pd.read_csv(parse_dates=...)`
performs: if every present cell of the column parses, the column becomes
datetime64; otherwise the column is returned unaltered as an object column
(documented pandas behaviour — no error is raised). -/
def parseDateCol (cells : List (Option String)) : Col :=
  if cells.all (fun c => (c.map (fun s => (parseTimestamp s).isSome)).getD true) then
    .T (cells.map (fun c => c.bind parseTimestamp))
  else .S cells

def dateColNames : List String := ["DATA", "DATAFINALIZACAO", "DATAULTIMAMENSAGEM"]

/-- Models `pd.read_csv(buf, parse_dates=['DATA','DATAFINALIZACAO',
'DATAULTIMAMENSAGEM'], dayfirst=True)`: raises when a `parse_dates` column is
missing from the header or a row has more fields than the header; short rows
are NaN-padded on the right; the three date columns get best-effort datetime
parsing; every other column is an object column (numeric dtype inference is
not modelled: non-date cells stay strings). -/
def read_csv (p : Payload) : Except String DataFrame :=
  if dateColNames.all (fun n => p.header.contains n) then
    if p.rows.any (fun r => p.header.length < r.length) then
      .error "Error tokenizing data"
    else
      .ok (p.header.enum.map (fun ic =>
        (ic.2, if dateColNames.contains ic.2 then parseDateCol (colCells p ic.1)
               else .S (colCells p ic.1))))
  else
    .error "Missing column provided to parse_dates"

/-- `parse_contents` from the source: `(df, None)` on success,
`(None, error message)` when pandas raises. -/
def parse_contents (p : Payload) : Option DataFrame × Option String :=
  match read_csv p with
  | .ok df => (some df, none)
  | .error e => (none, some ("Erro ao processar arquivo: " ++ e))

/-! ### Shared aggregation helpers -/

def firstSeenAux {α : Type} [DecidableEq α] : List α → List α → List α
  | [], _ => []
  | a :: l, seen => if a ∈ seen then firstSeenAux l seen else a :: firstSeenAux l (a :: seen)

/-- Distinct elements in first-seen order. -/
def firstSeen {α : Type} [DecidableEq α] (l : List α) : List α := firstSeenAux l []

/-- Insert `a` into `l`, before the first element `b` with `le a b`; with a
reflexive-on-ties `le` this realises a stable sort. -/
def insertLe {α : Type} (le : α → α → Bool) (a : α) : List α → List α
  | [] => [a]
  | b :: l => if le a b then a :: b :: l else b :: insertLe le a l

/-- A stable sort (insertion sort); extensionally the stable sort pandas
applies. -/
def insertionSort {α : Type} (le : α → α → Bool) : List α → List α
  | [] => []
  | a :: l => insertLe le a (insertionSort le l)

def countPairs (l : List String) : List (String × Nat) :=
  (firstSeen l).map (fun x => (x, l.count x))

/-- Stable sort by count descending (pandas `value_counts` keeps first-seen
order among ties). -/
def sortByCountDesc (l : List (String × Nat)) : List (String × Nat) :=
  insertionSort (fun a b => decide (b.2 ≤ a.2)) l

/-- Models `Series.value_counts()`: drops NaN, counts each distinct value,
sorts by count descending (stable). -/
def value_counts (l : List (Option String)) : List (String × Nat) :=
  sortByCountDesc (countPairs (l.filterMap id))

/-- Models `pd.to_datetime(series)` (and the `format='%d/%m/%Y %H:%M'`
variant used in `criar_tabela_followup`, which parses the same strings):
identity on an already-converted datetime column; on an object column parses
every present cell and raises if any present cell fails. The numeric case is
never reached at the source's call sites. -/
def to_datetimeL : Col → Except String (List (Option Nat))
  | .T l => .ok l
  | .S l =>
    if l.all (fun c => (c.map (fun s => (parseTimestamp s).isSome)).getD true) then
      .ok (l.map (fun c => c.bind parseTimestamp))
    else .error "time data does not match the expected format"
  | .N _ => .error "invalid dtype for to_datetime"

/-- `df[n]`: raises `KeyError` when the column is absent. -/
def getColE (df : DataFrame) (n : String) : Except String Col :=
  match getCol df n with
  | some c => .ok c
  | none => .error ("KeyError: " ++ n)

/-- `df.groupby(df['DATA'].dt.date).size()`: calendar date of each present
timestamp, grouped and counted, ordered by date ascending. -/
def dailyCounts (data : List (Option Nat)) : List (Nat × Nat) :=
  let dates := data.filterMap (fun c => c.map (fun t => t / 1440))
  (insertionSort (fun a b => decide (a ≤ b)) (firstSeen dates)).map
    (fun d => (d, dates.count d))

/-- The tag list `[x.strip() for tags in df['TAGS'].dropna() for x in
tags.split(',')]`. -/
def splitTags (cells : List (Option String)) : List String :=
  ((cells.filterMap id).map
    (fun s => (splitOnChar ',' s.data).map (fun f => String.mk (trimChars f)))).flatten

/-! ### atualizar_graficos -/

/-- The data plotted by the six figures `atualizar_graficos` returns. -/
structure Views where
  status : List (String × Nat)
  dept : List (String × Nat)
  timeline : List (Nat × Nat)
  tags : List (String × Nat)
  agents : List (String × Nat)
  total : Nat
deriving DecidableEq, Repr

/-- `atualizar_graficos` from the source. Figures are modelled by the data
they plot; the in-place column writes of lines 63-65 are modelled by
returning the updated frame. Line 64 of the source assigns
`pd.to_datetime(df['DATA'])` — the already-converted DATA column — to
DATAFINALIZACAO, so line 65 computes a zero handling time (the float hours of
line 65 are modelled as floored integer hours). -/
def atualizar_graficos (df : DataFrame) : Except String (Views × DataFrame) := do
  let dataCol ← getColE df "DATA"
  let data ← to_datetimeL dataCol
  let df1 := setCol df "DATA" (.T data)
  let df2 := setCol df1 "DATAFINALIZACAO" (.T data)
  let tempo := data.map
    (fun c => c.map (fun t : Nat => Int.fdiv ((Int.ofNat t - Int.ofNat t) * 60) 3600))
  let df3 := setCol df2 "TEMPO_ATENDIMENTO" (.N tempo)
  let statusCol ← getColE df3 "STATUS"
  let status := value_counts (colToStrings statusCol)
  let deptCol ← getColE df3 "DEPARTAMENTO"
  let dept := value_counts (colToStrings deptCol)
  let timeline := dailyCounts data
  let tagsCol ← getColE df3 "TAGS"
  let tags := (sortByCountDesc (countPairs (splitTags (colToStrings tagsCol)))).take 10
  let atCol ← getColE df3 "ATENDENTE"
  let agents := (value_counts (colToStrings atCol)).take 10
  pure ({ status := status, dept := dept, timeline := timeline, tags := tags,
          agents := agents, total := nrows df3 }, df3)

/-! ### criar_tabela_followup -/

/-- One record of the rendered follow-up table: the three group keys, the two
`strftime`-formatted group dates, and the two day counts (NaN as `none`). -/
structure FollowupRow where
  numero : String
  nome : String
  status : String
  dataS : Option String
  ultimaS : Option String
  diasSemContato : Option Int
  diasTotal : Option Int
deriving DecidableEq, Repr

/-- The rendered follow-up card: the `Dados atualizados até:` header date and
the table records. -/
structure FollowupView where
  updatedUntil : String
  rows : List FollowupRow
deriving DecidableEq, Repr

/-- A row restricted to the five columns `criar_tabela_followup` reads. -/
structure RawRow where
  numero : Option String
  nome : Option String
  status : Option String
  ultima : Option Nat
  data : Option Nat
deriving DecidableEq, Repr

def zipRows : List (Option String) → List (Option String) → List (Option String) →
    List (Option Nat) → List (Option Nat) → List RawRow
  | a :: nu, b :: no, c :: st, d :: ul, e :: da =>
    { numero := a, nome := b, status := c, ultima := d, data := e } :: zipRows nu no st ul da
  | _, _, _, _, _ => []

/-- A (NUMERO, NOME, STATUS) group key. -/
structure GKey where
  numero : String
  nome : String
  status : String
deriving DecidableEq, Repr

def keyOfRaw (r : RawRow) : GKey :=
  { numero := r.numero.getD "", nome := r.nome.getD "", status := r.status.getD "" }

/-- `criar_tabela_followup` from the source: converts the two date columns in
place (writes modelled by returning the updated frame), groups by
(NUMERO, NOME, STATUS) — pandas drops rows with a missing group key —
aggregates `max(DATAULTIMAMENSAGEM)` and `min(DATA)` per group (both skip
NaT), takes the reference timestamp as the maximum of the whole converted
DATAULTIMAMENSAGEM column, derives the two day counts (`Timedelta.days`
floors), formats the group dates, and finally formats the reference
timestamp for the card header — `strftime` on a NaT scalar raises, which is
the only failure on an otherwise well-formed empty table. pandas emits the
groups in sorted key order; they are modelled in first-seen order, on which
no aggregated value depends. -/
def criar_tabela_followup (df : DataFrame) : Except String (FollowupView × DataFrame) := do
  let ultimaCol ← getColE df "DATAULTIMAMENSAGEM"
  let ultima ← to_datetimeL ultimaCol
  let df1 := setCol df "DATAULTIMAMENSAGEM" (.T ultima)
  let dataCol ← getColE df1 "DATA"
  let data ← to_datetimeL dataCol
  let df2 := setCol df1 "DATA" (.T data)
  let numeroCol ← getColE df2 "NUMERO"
  let nomeCol ← getColE df2 "NOME"
  let statusCol ← getColE df2 "STATUS"
  let raw := zipRows (colToStrings numeroCol) (colToStrings nomeCol) (colToStrings statusCol)
    ultima data
  let kept := raw.filter (fun r => r.numero.isSome && r.nome.isSome && r.status.isSome)
  let keys := firstSeen (kept.map keyOfRaw)
  let ref := (ultima.filterMap id).max?
  let frows := keys.map (fun k =>
    let grp := kept.filter (fun r => decide (keyOfRaw r = k))
    let gmax := (grp.filterMap RawRow.ultima).max?
    let gmin := (grp.filterMap RawRow.data).min?
    { numero := k.numero, nome := k.nome, status := k.status,
      dataS := gmin.map formatTimestamp,
      ultimaS := gmax.map formatTimestamp,
      diasSemContato :=
        match ref, gmax with
        | some r, some m => some (Int.fdiv ((r : Int) - (m : Int)) 1440)
        | _, _ => none,
      diasTotal :=
        match ref, gmin with
        | some r, some m => some (Int.fdiv ((r : Int) - (m : Int)) 1440)
        | _, _ => none })
  match ref with
  | none => .error "NaTType does not support strftime"
  | some r => .ok ({ updatedUntil := formatTimestamp r, rows := frows }, df2)

/-! ### update_dashboard -/

/-- A Dash callback output slot: `dash.no_update` or a fresh value. -/
inductive Upd (α : Type) where
  | noUpdate
  | update (a : α)
deriving DecidableEq, Repr

/-- The eight outputs of the `update_dashboard` callback. -/
structure DashOut where
  statusF : Upd (List (String × Nat))
  deptF : Upd (List (String × Nat))
  timelineF : Upd (List (Nat × Nat))
  tagsF : Upd (List (String × Nat))
  agentsF : Upd (List (String × Nat))
  kpiF : Upd Nat
  followupF : Upd FollowupView
  message : Upd String
deriving DecidableEq, Repr

def allNoUpdate : DashOut :=
  { statusF := .noUpdate, deptF := .noUpdate, timelineF := .noUpdate, tagsF := .noUpdate,
    agentsF := .noUpdate, kpiF := .noUpdate, followupF := .noUpdate, message := .noUpdate }

/-- `[dash.no_update] * 7 + [msg]`. -/
def errOut (msg : String) : DashOut := { allNoUpdate with message := .update msg }

/-- The `update_dashboard` callback: no upload yields eight `no_update`; a
parse error (and any exception the aggregation raises, caught by the
`except` block) yields seven `no_update` plus the error message; otherwise
all views plus the success message are returned. The arm for
`(None, None)` is unreachable: `parse_contents` always sets exactly one
component. -/
def update_dashboard (contents : Option Payload) (filename : String) : DashOut :=
  match contents with
  | none => allNoUpdate
  | some p =>
    match parse_contents p with
    | (_, some err) => errOut err
    | (some df, none) =>
      match atualizar_graficos df with
      | .error e => errOut ("Erro ao processar arquivo: " ++ e)
      | .ok (v, df2) =>
        match criar_tabela_followup df2 with
        | .error e => errOut ("Erro ao processar arquivo: " ++ e)
        | .ok (fv, _) =>
          { statusF := .update v.status, deptF := .update v.dept,
            timelineF := .update v.timeline, tagsF := .update v.tags,
            agentsF := .update v.agents, kpiF := .update v.total,
            followupF := .update fv,
            message := .update ("Arquivo " ++ filename ++ " processado com sucesso!") }
    | (none, none) => allNoUpdate

/-! ### Normalized tables -/

/-- One ticket record of a normalized table (the spec's data model): the six
label fields and the three timestamp fields, any of which pandas may hold as
NaN/NaT. -/
structure Row where
  numero : Option String
  nome : Option String
  status : Option String
  departamento : Option String
  tags : Option String
  atendente : Option String
  data : Option Nat
  fin : Option Nat
  ultima : Option Nat
deriving DecidableEq, Repr

/-- The DataFrame a successful ingestion of the standard header produces:
object columns for the six label fields, datetime columns for the three
date fields. -/
def mkDF (rows : List Row) : DataFrame :=
  [("NUMERO", .S (rows.map Row.numero)),
   ("NOME", .S (rows.map Row.nome)),
   ("STATUS", .S (rows.map Row.status)),
   ("DEPARTAMENTO", .S (rows.map Row.departamento)),
   ("TAGS", .S (rows.map Row.tags)),
   ("ATENDENTE", .S (rows.map Row.atendente)),
   ("DATA", .T (rows.map Row.data)),
   ("DATAFINALIZACAO", .T (rows.map Row.fin)),
   ("DATAULTIMAMENSAGEM", .T (rows.map Row.ultima))]

/-! ### Derived forms of the two aggregation passes -/

def toRaw (r : Row) : RawRow :=
  { numero := r.numero, nome := r.nome, status := r.status, ultima := r.ultima, data := r.data }

/-- The TEMPO_ATENDIMENTO column line 65 produces: elementwise
`(DATAFINALIZACAO - DATA)` hours, with both columns holding the converted
DATA values. -/
def tempoOf (rows : List Row) : List (Option Int) :=
  (rows.map Row.data).map
    (fun c => c.map (fun t : Nat => Int.fdiv ((Int.ofNat t - Int.ofNat t) * 60) 3600))

/-- The frame `atualizar_graficos` leaves behind on a normalized table:
DATAFINALIZACAO overwritten with DATA, TEMPO_ATENDIMENTO appended. -/
def mkDFAfterAG (rows : List Row) : DataFrame :=
  [("NUMERO", .S (rows.map Row.numero)),
   ("NOME", .S (rows.map Row.nome)),
   ("STATUS", .S (rows.map Row.status)),
   ("DEPARTAMENTO", .S (rows.map Row.departamento)),
   ("TAGS", .S (rows.map Row.tags)),
   ("ATENDENTE", .S (rows.map Row.atendente)),
   ("DATA", .T (rows.map Row.data)),
   ("DATAFINALIZACAO", .T (rows.map Row.data)),
   ("DATAULTIMAMENSAGEM", .T (rows.map Row.ultima)),
   ("TEMPO_ATENDIMENTO", .N (tempoOf rows))]

/-- The record list of the follow-up table, as `criar_tabela_followup`
computes it from the five columns it reads. -/
def followupRecords (raw : List RawRow) : List FollowupRow :=
  let kept := raw.filter (fun r => r.numero.isSome && r.nome.isSome && r.status.isSome)
  let keys := firstSeen (kept.map keyOfRaw)
  let ref := ((raw.map RawRow.ultima).filterMap id).max?
  keys.map (fun k =>
    let grp := kept.filter (fun r => decide (keyOfRaw r = k))
    let gmax := (grp.filterMap RawRow.ultima).max?
    let gmin := (grp.filterMap RawRow.data).min?
    { numero := k.numero, nome := k.nome, status := k.status,
      dataS := gmin.map formatTimestamp,
      ultimaS := gmax.map formatTimestamp,
      diasSemContato :=
        match ref, gmax with
        | some r, some m => some (Int.fdiv ((r : Int) - (m : Int)) 1440)
        | _, _ => none,
      diasTotal :=
        match ref, gmin with
        | some r, some m => some (Int.fdiv ((r : Int) - (m : Int)) 1440)
        | _, _ => none })

/-- Input row `r` belongs to the follow-up group of output row `fr`. -/
def sameGroup (fr : FollowupRow) (r : Row) : Bool :=
  r.numero == some fr.numero && r.nome == some fr.nome && r.status == some fr.status

/-- The (NUMERO, NOME, STATUS) key of a normalized-table row. -/
def rowKey (r : Row) : GKey :=
  { numero := r.numero.getD "", nome := r.nome.getD "", status := r.status.getD "" }

/-- The follow-up records stated directly over the normalized rows: one
record per first-seen distinct key, carrying the group max of
DATAULTIMAMENSAGEM, the group min of DATA, and the two day counts taken
against the table-wide maximum of DATAULTIMAMENSAGEM. -/
def followupSpec (rows : List Row) : List FollowupRow :=
  (firstSeen (rows.map rowKey)).map (fun k =>
    { numero := k.numero, nome := k.nome, status := k.status,
      dataS := (((rows.filter (fun r => decide (rowKey r = k))).filterMap Row.data).min?).map
        formatTimestamp,
      ultimaS := (((rows.filter (fun r => decide (rowKey r = k))).filterMap Row.ultima).max?).map
        formatTimestamp,
      diasSemContato :=
        match (rows.filterMap Row.ultima).max?,
          ((rows.filter (fun r => decide (rowKey r = k))).filterMap Row.ultima).max? with
        | some r, some m => some (Int.fdiv ((r : Int) - (m : Int)) 1440)
        | _, _ => none,
      diasTotal :=
        match (rows.filterMap Row.ultima).max?,
          ((rows.filter (fun r => decide (rowKey r = k))).filterMap Row.data).min? with
        | some r, some m => some (Int.fdiv ((r : Int) - (m : Int)) 1440)
        | _, _ => none })

/-! ### Concrete inputs used by counterexamples and witnesses -/

def stdHeader : List String :=
  ["NUMERO", "NOME", "STATUS", "DEPARTAMENTO", "TAGS", "ATENDENTE",
   "DATA", "DATAFINALIZACAO", "DATAULTIMAMENSAGEM"]

/-- A single fully-present ticket whose DATAFINALIZACAO (200) differs from
its DATA (100). -/
def rowEx : Row :=
  { numero := some "1", nome := some "Ana", status := some "Aberto",
    departamento := some "Vendas", tags := some "vip", atendente := some "Jo",
    data := some 100, fin := some 200, ultima := some 300 }

/-- Zero data rows under the standard header. -/
def pEmptyT : Payload := { header := stdHeader, rows := [] }

/-- One row whose DATA cell does not match `DD/MM/YYYY HH:MM`. -/
def pBadTs : Payload :=
  { header := stdHeader,
    rows := [["1", "Ana", "Aberto", "Vendas", "vip", "Jo",
              "not-a-date", "02/02/2024 10:00", "03/02/2024 10:00"]] }

/-- The frame ingestion returns for `pBadTs`: the DATA column fell back to an
object column, the other two date columns parsed. -/
def dfBadTs : DataFrame :=
  [("NUMERO", .S [some "1"]),
   ("NOME", .S [some "Ana"]),
   ("STATUS", .S [some "Aberto"]),
   ("DEPARTAMENTO", .S [some "Vendas"]),
   ("TAGS", .S [some "vip"]),
   ("ATENDENTE", .S [some "Jo"]),
   ("DATA", .S [some "not-a-date"]),
   ("DATAFINALIZACAO", .T [some 1064568120]),
   ("DATAULTIMAMENSAGEM", .T [some 1064569560])]

/-- A payload whose header lacks the required STATUS column but has all
three timestamp columns. -/
def pNoStatus : Payload :=
  { header := ["NUMERO", "NOME", "DEPARTAMENTO", "TAGS", "ATENDENTE",
               "DATA", "DATAFINALIZACAO", "DATAULTIMAMENSAGEM"],
    rows := [["1", "Ana", "Vendas", "vip", "Jo",
              "01/02/2024 10:00", "02/02/2024 10:00", "03/02/2024 10:00"]] }

/-- A payload whose header lacks the DATA column. -/
def pNoData : Payload :=
  { header := ["NUMERO", "NOME", "STATUS", "DEPARTAMENTO", "TAGS", "ATENDENTE",
               "DATAFINALIZACAO", "DATAULTIMAMENSAGEM"],
    rows := [] }

/-- A payload whose header lacks the DATAFINALIZACAO column. -/
def pNoFin : Payload :=
  { header := ["NUMERO", "NOME", "STATUS", "DEPARTAMENTO", "TAGS", "ATENDENTE",
               "DATA", "DATAULTIMAMENSAGEM"],
    rows := [["2", "Bia", "Fechado", "Suporte", "urgent", "Ka",
              "02/02/2024 09:00", "05/02/2024 12:30"]] }

/-- One row with a missing STATUS cell but a present DEPARTAMENTO. -/
def rowsC4 : List Row :=
  [{ numero := some "1", nome := some "Ana", status := none,
     departamento := some "Vendas", tags := none, atendente := some "Jo",
     data := some 100, fin := some 200, ultima := some 300 }]

/-- Three fully-present rows, the first and third sharing their
(NUMERO, NOME, STATUS) triple. -/
def rowsC6 : List Row :=
  [{ numero := some "1", nome := some "Ana", status := some "Aberto",
     departamento := some "Vendas", tags := none, atendente := some "Jo",
     data := some 1000, fin := some 1500, ultima := some 2000 },
   { numero := some "2", nome := some "Bia", status := some "Fechado",
     departamento := some "Suporte", tags := some "vip", atendente := some "Ka",
     data := some 500, fin := some 700, ultima := some 9000 },
   { numero := some "1", nome := some "Ana", status := some "Aberto",
     departamento := some "Vendas", tags := none, atendente := some "Jo",
     data := some 800, fin := some 900, ultima := some 5000 }]

/-- The spec's topTags scenario: tags `"vip, urgent"`, `"urgent"`, missing. -/
def rowsC7 : List Row :=
  [{ numero := some "1", nome := some "Ana", status := some "Aberto",
     departamento := some "Vendas", tags := some "vip, urgent", atendente := some "Jo",
     data := some 100, fin := some 200, ultima := some 300 },
   { numero := some "2", nome := some "Bia", status := some "Aberto",
     departamento := some "Vendas", tags := some "urgent", atendente := some "Jo",
     data := some 100, fin := some 200, ultima := some 300 },
   { numero := some "3", nome := some "Caio", status := some "Aberto",
     departamento := some "Vendas", tags := none, atendente := some "Jo",
     data := some 100, fin := some 200, ultima := some 300 }]

/-! ### Helper lemmas -/

theorem bind_ok {α β : Type} {x : Except String α} {f : α → Except String β} {b : β}
    (h : (x >>= f) = .ok b) : ∃ a, x = .ok a ∧ f a = .ok b := by
  cases x with
  | error e => simp [Bind.bind, Except.bind] at h
  | ok a => exact ⟨a, rfl, by simpa [Bind.bind, Except.bind] using h⟩

theorem getCol_map_replace_self (df : DataFrame) (n : String) (c : Col)
    (h : df.any (fun p => p.1 == n) = true) :
    getCol (df.map (fun p => if p.1 == n then (n, c) else p)) n = some c := by
  induction df with
  | nil => simp at h
  | cons hd tl ih =>
    by_cases hh : hd.1 = n
    · have h1 : (hd.1 == n) = true := by simpa using hh
      simp [getCol, List.find?, h1]
    · have h1 : (hd.1 == n) = false := by simpa using hh
      have h2 : tl.any (fun p => p.1 == n) = true := by
        simpa [h1] using h
      simpa [getCol, List.find?, h1] using ih h2

theorem getCol_map_replace_ne (df : DataFrame) (n m : String) (c : Col) (h : m ≠ n) :
    getCol (df.map (fun p => if p.1 == n then (n, c) else p)) m = getCol df m := by
  induction df with
  | nil => rfl
  | cons hd tl ih =>
    by_cases hh : hd.1 = n
    · have h1 : (hd.1 == n) = true := by simpa using hh
      have h2 : (n == m) = false := by
        simpa using fun e => h e.symm
      have h3 : (hd.1 == m) = false := by
        rw [hh]
        exact h2
      simpa [getCol, List.find?, h1, h2, h3] using ih
    · have h1 : (hd.1 == n) = false := by simpa using hh
      by_cases hm : hd.1 = m
      · have h2 : (hd.1 == m) = true := by simpa using hm
        simp [getCol, List.find?, h1, h2]
      · have h2 : (hd.1 == m) = false := by simpa using hm
        simpa [getCol, List.find?, h1, h2] using ih

theorem getCol_setCol_self (df : DataFrame) (n : String) (c : Col) :
    getCol (setCol df n c) n = some c := by
  unfold setCol
  by_cases h : df.any (fun p => p.1 == n)
  · rw [if_pos h]
    exact getCol_map_replace_self df n c h
  · rw [if_neg h]
    have hn : List.find? (fun p => p.1 == n) df = none :=
      List.find?_eq_none.mpr (fun p hp hc => h (List.any_eq_true.mpr ⟨p, hp, hc⟩))
    rw [getCol, List.find?_append, hn]
    simp [List.find?]

theorem getCol_setCol_ne (df : DataFrame) (n m : String) (c : Col) (h : m ≠ n) :
    getCol (setCol df n c) m = getCol df m := by
  unfold setCol
  by_cases ha : df.any (fun p => p.1 == n)
  · rw [if_pos ha]
    exact getCol_map_replace_ne df n m c h
  · rw [if_neg ha]
    have h2 : (n == m) = false := by
      simpa using fun e => h e.symm
    rw [getCol, getCol, List.find?_append]
    have hone : List.find? (fun p => p.1 == m) [(n, c)] = none := by
      simp [List.find?, h2]
    rw [hone]
    cases List.find? (fun p => p.1 == m) df <;> rfl

theorem mem_firstSeenAux {α : Type} [DecidableEq α] (l : List α) :
    ∀ (seen : List α) (x : α), x ∈ firstSeenAux l seen ↔ (x ∈ l ∧ x ∉ seen) := by
  induction l with
  | nil => simp [firstSeenAux]
  | cons a l ih =>
    intro seen x
    rw [firstSeenAux]
    by_cases ha : a ∈ seen
    · rw [if_pos ha, ih]
      by_cases hx : x = a
      · subst hx; simp [ha]
      · simp [hx]
    · rw [if_neg ha]
      by_cases hx : x = a
      · subst hx; simp [ha]
      · simp [List.mem_cons, hx, false_or, ih]

theorem mem_firstSeen {α : Type} [DecidableEq α] (l : List α) (a : α) :
    a ∈ firstSeen l ↔ a ∈ l := by
  rw [firstSeen, mem_firstSeenAux]
  simp

theorem nodup_firstSeenAux {α : Type} [DecidableEq α] (l : List α) :
    ∀ seen : List α, (firstSeenAux l seen).Nodup := by
  induction l with
  | nil => intro seen; simp [firstSeenAux]
  | cons a l ih =>
    intro seen
    rw [firstSeenAux]
    by_cases ha : a ∈ seen
    · rw [if_pos ha]; exact ih seen
    · rw [if_neg ha]
      refine List.Nodup.cons ?_ (ih (a :: seen))
      intro hmem
      rcases (mem_firstSeenAux l (a :: seen) a).mp hmem with ⟨-, hno⟩
      exact hno (List.mem_cons_self a seen)

theorem nodup_firstSeen {α : Type} [DecidableEq α] (l : List α) :
    (firstSeen l).Nodup := nodup_firstSeenAux l []

theorem insertLe_perm {α : Type} (le : α → α → Bool) (a : α) (l : List α) :
    List.Perm (insertLe le a l) (a :: l) := by
  induction l with
  | nil => rfl
  | cons b l ih =>
    rw [insertLe]
    by_cases h : le a b
    · rw [if_pos h]
    · rw [if_neg h]
      exact (ih.cons b).trans (List.Perm.swap a b l)

theorem insertionSort_perm {α : Type} (le : α → α → Bool) (l : List α) :
    List.Perm (insertionSort le l) l := by
  induction l with
  | nil => rfl
  | cons a l ih =>
    rw [insertionSort]
    exact (insertLe_perm le a (insertionSort le l)).trans (ih.cons a)

theorem pairwise_insertLe {α : Type} (le : α → α → Bool)
    (total : ∀ a b, le a b = true ∨ le b a = true)
    (trans : ∀ a b c, le a b = true → le b c = true → le a c = true)
    (a : α) (l : List α) (h : l.Pairwise (fun x y => le x y = true)) :
    (insertLe le a l).Pairwise (fun x y => le x y = true) := by
  induction l with
  | nil => simp [insertLe]
  | cons b l ih =>
    rw [insertLe]
    rcases List.pairwise_cons.mp h with ⟨hb, hl⟩
    by_cases hab : le a b
    · rw [if_pos hab]
      refine List.pairwise_cons.mpr ⟨?_, h⟩
      intro x hx
      rcases List.mem_cons.mp hx with rfl | hx
      · exact hab
      · exact trans a b x hab (hb x hx)
    · rw [if_neg hab]
      refine List.pairwise_cons.mpr ⟨?_, ih hl⟩
      intro x hx
      rcases List.mem_cons.mp ((insertLe_perm le a l).mem_iff.mp hx) with rfl | hx
      · rcases total x b with hx | hx
        · exact absurd hx hab
        · exact hx
      · exact hb x hx

theorem pairwise_insertionSort {α : Type} (le : α → α → Bool)
    (total : ∀ a b, le a b = true ∨ le b a = true)
    (trans : ∀ a b c, le a b = true → le b c = true → le a c = true)
    (l : List α) : (insertionSort le l).Pairwise (fun x y => le x y = true) := by
  induction l with
  | nil => simp [insertionSort]
  | cons a l ih =>
    rw [insertionSort]
    exact pairwise_insertLe le total trans a _ ih

theorem firstSeen_perm_dedup {α : Type} [DecidableEq α] (l : List α) :
    List.Perm (firstSeen l) l.dedup := by
  refine (List.perm_ext_iff_of_nodup (nodup_firstSeen l) (List.nodup_dedup l)).mpr ?_
  intro a
  rw [mem_firstSeen, List.mem_dedup]

theorem sum_counts_firstSeen {α : Type} [DecidableEq α] (l : List α) :
    ((firstSeen l).map (fun x => l.count x)).sum = l.length := by
  have h := (firstSeen_perm_dedup l).map (fun x => l.count x)
  rw [h.sum_eq]
  exact List.sum_map_count_dedup_eq_length l

theorem sortByCountDesc_perm (l : List (String × Nat)) :
    List.Perm (sortByCountDesc l) l :=
  insertionSort_perm _ l

/-- The counts in `value_counts` sum to the number of non-missing cells. -/
theorem value_counts_sum (l : List (Option String)) :
    ((value_counts l).map Prod.snd).sum = (l.filterMap id).length := by
  unfold value_counts
  rw [((sortByCountDesc_perm (countPairs (l.filterMap id))).map Prod.snd).sum_eq]
  unfold countPairs
  rw [List.map_map]
  exact sum_counts_firstSeen (l.filterMap id)

theorem zipRows_map (rows : List Row) :
    zipRows (rows.map Row.numero) (rows.map Row.nome) (rows.map Row.status)
      (rows.map Row.ultima) (rows.map Row.data) = rows.map toRaw := by
  induction rows with
  | nil => rfl
  | cons r rs ih => simp [zipRows, toRaw, ih]

theorem toRaw_ultima : RawRow.ultima ∘ toRaw = Row.ultima := rfl

/-- `atualizar_graficos` on a normalized table: always succeeds, returns the
five chart datasets plus the row count, and the mutated frame. -/
theorem atualizar_graficos_mkDF (rows : List Row) :
    atualizar_graficos (mkDF rows) = .ok
      ({ status := value_counts (rows.map Row.status),
         dept := value_counts (rows.map Row.departamento),
         timeline := dailyCounts (rows.map Row.data),
         tags := (sortByCountDesc (countPairs (splitTags (rows.map Row.tags)))).take 10,
         agents := (value_counts (rows.map Row.atendente)).take 10,
         total := rows.length }, mkDFAfterAG rows) := by
  simp [atualizar_graficos, mkDF, mkDFAfterAG, getColE, getCol, to_datetimeL, setCol,
    nrows, colLen, colToStrings, tempoOf, List.find?, Bind.bind, Except.bind, pure, Except.pure]

/-- `criar_tabela_followup` on a normalized table: fails exactly when the
DATAULTIMAMENSAGEM column has no present value, and otherwise returns the
grouped records; the two date columns are rewritten with their own values,
so the frame comes back unchanged. -/
theorem criar_mkDF (rows : List Row) :
    criar_tabela_followup (mkDF rows) =
      match (rows.filterMap Row.ultima).max? with
      | none => .error "NaTType does not support strftime"
      | some r => .ok ({ updatedUntil := formatTimestamp r,
                         rows := followupRecords (rows.map toRaw) }, mkDF rows) := by
  simp [criar_tabela_followup, mkDF, getColE, getCol, to_datetimeL, setCol,
    colToStrings, List.find?, Bind.bind, Except.bind, zipRows_map, followupRecords,
    List.map_map, toRaw_ultima]

/-! ### Claim C7 -/

/-- Claim C7 — topTags splits each row's tags field on commas, trims each
fragment, drops missing tag fields, counts occurrences across rows and takes
the top 10 by count: on the spec's scenario (tags `"vip, urgent"`,
`"urgent"`, missing) `atualizar_graficos` produces exactly
`[("urgent", 2), ("vip", 1)]`. -/
theorem c7_top_tags :
    (atualizar_graficos (mkDF rowsC7)).map (fun p => p.1.tags) =
      .ok [("urgent", 2), ("vip", 1)] := by
  decide

/-! ### Claim C2 -/

/-- Claim C2 counterexample — the empty table (zero rows, standard header)
passes ingestion, but `criar_tabela_followup` does not complete normally on
it: formatting the NaT reference timestamp raises, so the claim's
"no exception raised by any aggregation operation" is false. -/
theorem c2_counterexample :
    parse_contents pEmptyT = (some (mkDF []), none) ∧
    (criar_tabela_followup (mkDF [])).isOk = false := by
  decide

/-- Claim C2 as amended — on the empty table ingestion succeeds,
`atualizar_graficos` completes with all five chart views empty and
`totalCount = 0`, but `criar_tabela_followup` raises while formatting the
NaT reference timestamp (`data_mais_recente.strftime`, line 212), so the
dashboard shows only the error message. -/
theorem c2_empty_table :
    parse_contents pEmptyT = (some (mkDF []), none) ∧
    atualizar_graficos (mkDF []) = .ok
      ({ status := [], dept := [], timeline := [], tags := [], agents := [], total := 0 },
       mkDFAfterAG []) ∧
    criar_tabela_followup (mkDFAfterAG []) = .error "NaTType does not support strftime" ∧
    update_dashboard (some pEmptyT) "dados.csv" =
      errOut "Erro ao processar arquivo: NaTType does not support strftime" := by
  decide

/-! ### Claim C5 -/

/-- Claim C5 counterexample — a payload missing the required STATUS column
is not rejected by ingestion: `parse_contents` returns a table and no error
message. -/
theorem c5_counterexample :
    (parse_contents pNoStatus).2 = none ∧ (parse_contents pNoStatus).1.isSome = true := by
  decide

/-- Claim C5 as amended — ingestion validates only the three timestamp
columns: a payload whose header lacks DATA, DATAFINALIZACAO or
DATAULTIMAMENSAGEM makes `parse_contents` return no table and a non-empty
error message (missing non-timestamp columns instead surface later, inside
the aggregation). -/
theorem c5_missing_column (p : Payload)
    (h : "DATA" ∉ p.header ∨ "DATAFINALIZACAO" ∉ p.header ∨ "DATAULTIMAMENSAGEM" ∉ p.header) :
    parse_contents p =
      (none, some "Erro ao processar arquivo: Missing column provided to parse_dates") ∧
    "Erro ao processar arquivo: Missing column provided to parse_dates" ≠ "" := by
  constructor
  · have hall : dateColNames.all (fun n => p.header.contains n) = false := by
      rw [List.all_eq_false]
      rcases h with h | h | h
      · exact ⟨"DATA", by simp [dateColNames], by simpa using h⟩
      · exact ⟨"DATAFINALIZACAO", by simp [dateColNames], by simpa using h⟩
      · exact ⟨"DATAULTIMAMENSAGEM", by simp [dateColNames], by simpa using h⟩
    unfold parse_contents read_csv
    rw [hall]
    simp
  · decide

/-- Claim C5 witness — the payload `pNoData` (no DATA column) is rejected
with the non-empty error message. -/
theorem c5_missing_column_witness :
    parse_contents pNoData =
      (none, some "Erro ao processar arquivo: Missing column provided to parse_dates") ∧
    "Erro ao processar arquivo: Missing column provided to parse_dates" ≠ "" :=
  c5_missing_column pNoData (Or.inl (by decide))

/-! ### Claim C8 -/

/-- Claim C8 — whenever ingestion fails, `update_dashboard` leaves all seven
view outputs at `dash.no_update` and updates only the user-facing message
with the error text. -/
theorem c8_failure_preserves_views (p : Payload) (fname err : String)
    (h : parse_contents p = (none, some err)) :
    update_dashboard (some p) fname = errOut err := by
  simp [update_dashboard, h]

/-- Claim C8 witness — at the payload `pNoFin` (missing DATAFINALIZACAO)
only the message output changes. -/
theorem c8_failure_preserves_views_witness :
    update_dashboard (some pNoFin) "relatorio.csv" =
      errOut "Erro ao processar arquivo: Missing column provided to parse_dates" :=
  c8_failure_preserves_views pNoFin "relatorio.csv" _ (by decide)

/-! ### Claim C1 -/

/-- Claim C1 counterexample — `atualizar_graficos` does not leave its input
unchanged: on a one-row table whose DATAFINALIZACAO differs from DATA it
completes normally but hands back a mutated frame. -/
theorem c1_counterexample :
    Except.map Prod.snd (atualizar_graficos (mkDF [rowEx])) ≠ Except.ok (mkDF [rowEx]) ∧
    (atualizar_graficos (mkDF [rowEx])).isOk = true := by
  decide

/-! ### Claim C3 -/

/-- Claim C3 counterexample — a payload whose DATA column holds a value that
does not match `DD/MM/YYYY HH:MM` is NOT rejected by ingestion:
`parse_contents` returns a table and no error (pandas' `read_csv` leaves an
unparsable `parse_dates` column unaltered). -/
theorem c3_counterexample :
    (parse_contents pBadTs).1.isSome = true ∧ (parse_contents pBadTs).2 = none := by
  decide

/-- Claim C3 as amended — a timestamp value that does not match the
configured format does NOT make ingestion fail: `parse_contents` returns the
table with the DATA column left as strings; the failure happens later, when
`atualizar_graficos` re-converts DATA and raises, and `update_dashboard`
catches it, leaving all seven views untouched and updating only the
user-facing message. -/
theorem c3_malformed_timestamp (p : Payload) (df : DataFrame) (cells : List (Option String))
    (s fname : String)
    (hp : parse_contents p = (some df, none))
    (hg : getCol df "DATA" = some (.S cells))
    (hm : some s ∈ cells)
    (hbad : parseTimestamp s = none) :
    (atualizar_graficos df).isOk = false ∧
    update_dashboard (some p) fname =
      errOut "Erro ao processar arquivo: time data does not match the expected format" := by
  have hgE : getColE df "DATA" = .ok (.S cells) := by
    unfold getColE
    rw [hg]
  have hfalse : (cells.all fun c => (Option.map (fun s => (parseTimestamp s).isSome) c).getD true)
      = false := by
    rw [List.all_eq_false]
    exact ⟨some s, hm, by simp [hbad]⟩
  have hconv : to_datetimeL (.S cells) =
      .error "time data does not match the expected format" := by
    simp [to_datetimeL, hfalse]
  have hag : atualizar_graficos df =
      .error "time data does not match the expected format" := by
    unfold atualizar_graficos
    rw [hgE]
    simp only [Bind.bind, Except.bind]
    rw [hconv]
  refine ⟨by rw [hag]; rfl, ?_⟩
  simp [update_dashboard, hp, hag]

/-- Claim C3 witness — the payload `pBadTs` (DATA cell `"not-a-date"`)
passes ingestion, then `atualizar_graficos` raises and only the message
changes. -/
theorem c3_malformed_timestamp_witness :
    (atualizar_graficos dfBadTs).isOk = false ∧
    update_dashboard (some pBadTs) "dados2.csv" =
      errOut "Erro ao processar arquivo: time data does not match the expected format" :=
  c3_malformed_timestamp pBadTs dfBadTs [some "not-a-date"] "not-a-date" "dados2.csv"
    (by decide) (by decide) (by decide) (by decide)

/-! ### Claim C10 -/

/-- Claim C10 — after any successful run of `atualizar_graficos`, the
DATAFINALIZACAO column of the frame equals its DATA column (line 64
overwrites it with `pd.to_datetime(df['DATA'])`), and every present
TEMPO_ATENDIMENTO value is 0. -/
theorem c10_overwrite (df : DataFrame) (v : Views) (df2 : DataFrame)
    (h : atualizar_graficos df = .ok (v, df2)) :
    getCol df2 "DATAFINALIZACAO" = getCol df2 "DATA" ∧
    (∀ l, getCol df2 "TEMPO_ATENDIMENTO" = some (.N l) →
      ∀ x ∈ l, ∀ z : Int, x = some z → z = 0) := by
  unfold atualizar_graficos at h
  obtain ⟨dataCol, h1, h⟩ := bind_ok h
  obtain ⟨data, h2, h⟩ := bind_ok h
  obtain ⟨statusCol, h3, h⟩ := bind_ok h
  obtain ⟨deptCol, h4, h⟩ := bind_ok h
  obtain ⟨tagsCol, h5, h⟩ := bind_ok h
  obtain ⟨atCol, h6, h⟩ := bind_ok h
  simp only [pure, Except.pure, Except.ok.injEq, Prod.mk.injEq] at h
  obtain ⟨-, hdf⟩ := h
  subst hdf
  constructor
  · rw [getCol_setCol_ne _ "TEMPO_ATENDIMENTO" "DATAFINALIZACAO" _ (by decide),
      getCol_setCol_ne _ "TEMPO_ATENDIMENTO" "DATA" _ (by decide),
      getCol_setCol_self,
      getCol_setCol_ne _ "DATAFINALIZACAO" "DATA" _ (by decide),
      getCol_setCol_self]
  · intro l hl x hx z hz
    rw [getCol_setCol_self] at hl
    obtain rfl : (data.map
        (fun c => c.map (fun t : Nat => Int.fdiv ((Int.ofNat t - Int.ofNat t) * 60) 3600)))
        = l := by
      have := Option.some.inj hl
      exact Col.N.inj this
    rcases List.mem_map.mp hx with ⟨c, hc, rfl⟩
    cases c with
    | none => simp at hz
    | some t =>
      simp at hz
      omega

/-- Claim C10 witness — on a concrete one-row table, the frame
`atualizar_graficos` returns has DATAFINALIZACAO equal to DATA. -/
theorem c10_overwrite_witness :
    getCol (mkDFAfterAG [rowEx]) "DATAFINALIZACAO" = getCol (mkDFAfterAG [rowEx]) "DATA" :=
  (c10_overwrite (mkDF [rowEx]) _ _ (atualizar_graficos_mkDF [rowEx])).1

/-- Claim C1 as amended — the aggregation operations DO mutate the input
frame in place (converted DATA and DATAULTIMAMENSAGEM columns written back,
DATAFINALIZACAO overwritten, TEMPO_ATENDIMENTO appended), but every other
column is left unchanged by both `atualizar_graficos` and
`criar_tabela_followup`. -/
theorem c1_mutation (df : DataFrame) (n : String)
    (hn1 : n ≠ "DATA") (hn2 : n ≠ "DATAFINALIZACAO") (hn3 : n ≠ "TEMPO_ATENDIMENTO")
    (hn4 : n ≠ "DATAULTIMAMENSAGEM") :
    (∀ v df2, atualizar_graficos df = .ok (v, df2) → getCol df2 n = getCol df n) ∧
    (∀ fv df2, criar_tabela_followup df = .ok (fv, df2) → getCol df2 n = getCol df n) := by
  constructor
  · intro v df2 h
    unfold atualizar_graficos at h
    obtain ⟨dataCol, h1, h⟩ := bind_ok h
    obtain ⟨data, h2, h⟩ := bind_ok h
    obtain ⟨statusCol, h3, h⟩ := bind_ok h
    obtain ⟨deptCol, h4, h⟩ := bind_ok h
    obtain ⟨tagsCol, h5, h⟩ := bind_ok h
    obtain ⟨atCol, h6, h⟩ := bind_ok h
    simp only [pure, Except.pure, Except.ok.injEq, Prod.mk.injEq] at h
    obtain ⟨-, hdf⟩ := h
    subst hdf
    rw [getCol_setCol_ne _ _ _ _ hn3, getCol_setCol_ne _ _ _ _ hn2,
      getCol_setCol_ne _ _ _ _ hn1]
  · intro fv df2 h
    unfold criar_tabela_followup at h
    obtain ⟨ultimaCol, h1, h⟩ := bind_ok h
    obtain ⟨ultima, h2, h⟩ := bind_ok h
    obtain ⟨dataCol, h3, h⟩ := bind_ok h
    obtain ⟨data, h4, h⟩ := bind_ok h
    obtain ⟨numeroCol, h5, h⟩ := bind_ok h
    obtain ⟨nomeCol, h6, h⟩ := bind_ok h
    obtain ⟨statusCol, h7, h⟩ := bind_ok h
    simp only [] at h
    split at h
    · exact absurd h (by simp)
    · simp only [Except.ok.injEq, Prod.mk.injEq] at h
      obtain ⟨-, hdf⟩ := h
      subst hdf
      rw [getCol_setCol_ne _ _ _ _ hn1, getCol_setCol_ne _ _ _ _ hn4]

/-- Claim C1 witness — on a concrete one-row table, the STATUS column is
unchanged by both operations. -/
theorem c1_mutation_witness :
    getCol (mkDFAfterAG [rowEx]) "STATUS" = getCol (mkDF [rowEx]) "STATUS" ∧
    getCol (mkDF [rowEx]) "STATUS" = getCol (mkDF [rowEx]) "STATUS" := by
  have hcr : criar_tabela_followup (mkDF [rowEx]) = .ok
      ({ updatedUntil := formatTimestamp 300, rows := followupRecords ([rowEx].map toRaw) },
       mkDF [rowEx]) := by
    rw [criar_mkDF]
    rfl
  exact ⟨(c1_mutation (mkDF [rowEx]) "STATUS" (by decide) (by decide) (by decide)
      (by decide)).1 _ _ (atualizar_graficos_mkDF [rowEx]),
    (c1_mutation (mkDF [rowEx]) "STATUS" (by decide) (by decide) (by decide)
      (by decide)).2 _ _ hcr⟩

/-! ### Claim C4 -/

/-- Claim C4 counterexample — on a one-row table whose STATUS cell is
missing, the statusCounts values sum to 0 while totalCount is 1
(`value_counts` drops NaN), so the claimed equality fails. -/
theorem c4_counterexample :
    Except.map (fun p => ((p.1.status.map Prod.snd).sum)) (atualizar_graficos (mkDF rowsC4)) ≠
    Except.map (fun p => p.1.total) (atualizar_graficos (mkDF rowsC4)) := by
  decide

/-- Claim C4 as amended — on every normalized table the statusCounts values
sum to the number of rows with a present STATUS, the departmentCounts values
sum to the number of rows with a present DEPARTAMENTO, and totalCount is the
row count; the three coincide whenever no status or department cell is
missing. -/
theorem c4_sums (rows : List Row) :
    (atualizar_graficos (mkDF rows)).map (fun p => (p.1.status.map Prod.snd).sum) =
      .ok (rows.filterMap Row.status).length ∧
    (atualizar_graficos (mkDF rows)).map (fun p => (p.1.dept.map Prod.snd).sum) =
      .ok (rows.filterMap Row.departamento).length ∧
    (atualizar_graficos (mkDF rows)).map (fun p => p.1.total) = .ok rows.length := by
  rw [atualizar_graficos_mkDF]
  refine ⟨?_, ?_, rfl⟩
  · simp [Except.map, value_counts_sum, List.filterMap_map, Function.comp]
  · simp [Except.map, value_counts_sum, List.filterMap_map, Function.comp]

/-! ### Claim C9 -/

/-- Claim C9 — the dailyVolume view of `atualizar_graficos` is the ordered
(date, count) sequence of `dailyCounts`; its dates are strictly increasing
(hence duplicate-free), a date occurs in it exactly when some row's present
`opened_at` truncates to that calendar date, and each count is the number
of such timestamps. -/
theorem c9_daily_volume (rows : List Row) :
    (atualizar_graficos (mkDF rows)).map (fun p => p.1.timeline) =
      .ok (dailyCounts (rows.map Row.data)) ∧
    ((dailyCounts (rows.map Row.data)).map Prod.fst).Pairwise (· < ·) ∧
    (∀ d, d ∈ (dailyCounts (rows.map Row.data)).map Prod.fst ↔
      ∃ r ∈ rows, ∃ t, r.data = some t ∧ t / 1440 = d) ∧
    (∀ dc ∈ dailyCounts (rows.map Row.data),
      dc.2 = ((rows.map Row.data).filterMap (fun c => c.map (fun t => t / 1440))).count dc.1) := by
  have hfst : (dailyCounts (rows.map Row.data)).map Prod.fst =
      insertionSort (fun a b => decide (a ≤ b))
        (firstSeen ((rows.map Row.data).filterMap (fun c => c.map (fun t => t / 1440)))) := by
    unfold dailyCounts
    rw [List.map_map]
    exact List.map_id'' (fun x => rfl) _
  have htotal : ∀ a b : Nat, (decide (a ≤ b)) = true ∨ (decide (b ≤ a)) = true := by
    intro a b
    rcases Nat.le_total a b with h | h
    · exact Or.inl (decide_eq_true h)
    · exact Or.inr (decide_eq_true h)
  have htrans : ∀ a b c : Nat, (decide (a ≤ b)) = true → (decide (b ≤ c)) = true →
      (decide (a ≤ c)) = true := by
    intro a b c h1 h2
    exact decide_eq_true (Nat.le_trans (of_decide_eq_true h1) (of_decide_eq_true h2))
  refine ⟨by rw [atualizar_graficos_mkDF]; rfl, ?_, ?_, ?_⟩
  · rw [hfst]
    have hs := pairwise_insertionSort _ htotal htrans
      (firstSeen ((rows.map Row.data).filterMap (fun c => c.map (fun t => t / 1440))))
    have hn : (insertionSort (fun a b => decide (a ≤ b))
        (firstSeen ((rows.map Row.data).filterMap (fun c => c.map (fun t => t / 1440))))).Nodup :=
      ((insertionSort_perm _ _).nodup_iff).mpr (nodup_firstSeen _)
    exact (hs.and hn).imp (fun h => lt_of_le_of_ne (of_decide_eq_true h.1) h.2)
  · intro d
    rw [hfst, (insertionSort_perm _ _).mem_iff, mem_firstSeen]
    simp [List.mem_filterMap, Option.map_eq_some]
  · intro dc hdc
    unfold dailyCounts at hdc
    rcases List.mem_map.mp hdc with ⟨d, hd, rfl⟩
    rfl

theorem keyOfRaw_toRaw (r : Row) : keyOfRaw (toRaw r) = rowKey r := rfl

theorem toRaw_data : RawRow.data ∘ toRaw = Row.data := rfl

theorem followupRecords_normalized (rows : List Row)
    (hp : ∀ r ∈ rows, r.numero.isSome ∧ r.nome.isSome ∧ r.status.isSome) :
    followupRecords (rows.map toRaw) = followupSpec rows := by
  have hkept : (rows.map toRaw).filter
      (fun r => r.numero.isSome && r.nome.isSome && r.status.isSome) = rows.map toRaw := by
    rw [List.filter_eq_self]
    intro x hx
    rcases List.mem_map.mp hx with ⟨r, hr, rfl⟩
    rcases hp r hr with ⟨h1, h2, h3⟩
    simp [toRaw, h1, h2, h3]
  unfold followupRecords followupSpec
  rw [hkept]
  simp only [List.map_map, List.filter_map, List.filterMap_map, Function.comp_def,
    keyOfRaw_toRaw, toRaw_ultima, toRaw_data, Function.id_comp]
  rfl

/-! ### Claim C6 -/

/-- Claim C6 — on a normalized table whose key and date fields are all
present, `criar_tabela_followup` emits exactly one record per distinct
(NUMERO, NOME, STATUS) triple of the input (no duplicates, and a triple
appears iff some input row carries it); each record carries the group
maximum of DATAULTIMAMENSAGEM and the group minimum of DATA (formatted),
and its two day counts are the floored day differences between the
table-wide maximum of DATAULTIMAMENSAGEM and the group aggregates. -/
theorem c6_followup (rows : List Row)
    (hp : ∀ r ∈ rows, r.numero.isSome ∧ r.nome.isSome ∧ r.status.isSome ∧
      r.ultima.isSome ∧ r.data.isSome) :
    ∀ fv df2, criar_tabela_followup (mkDF rows) = .ok (fv, df2) →
      (fv.rows.map (fun fr => (fr.numero, fr.nome, fr.status))).Nodup ∧
      (∀ a b c, (a, b, c) ∈ fv.rows.map (fun fr => (fr.numero, fr.nome, fr.status)) ↔
        ∃ r ∈ rows, r.numero = some a ∧ r.nome = some b ∧ r.status = some c) ∧
      (∀ fr ∈ fv.rows,
        fr.ultimaS =
          ((rows.filter (sameGroup fr)).filterMap Row.ultima).max?.map formatTimestamp ∧
        fr.dataS =
          ((rows.filter (sameGroup fr)).filterMap Row.data).min?.map formatTimestamp ∧
        (∀ R M, (rows.filterMap Row.ultima).max? = some R →
          ((rows.filter (sameGroup fr)).filterMap Row.ultima).max? = some M →
          fr.diasSemContato = some (Int.fdiv ((R : Int) - (M : Int)) 1440)) ∧
        (∀ R M, (rows.filterMap Row.ultima).max? = some R →
          ((rows.filter (sameGroup fr)).filterMap Row.data).min? = some M →
          fr.diasTotal = some (Int.fdiv ((R : Int) - (M : Int)) 1440))) := by
  have hgetD : ∀ (o : Option String) (x : String), o.isSome → (o.getD "" = x ↔ o = some x) := by
    intro o x ho
    cases o with
    | none => simp at ho
    | some v => simp
  intro fv df2 h
  rw [criar_mkDF] at h
  cases href : (rows.filterMap Row.ultima).max? with
  | none =>
    rw [href] at h
    exact absurd h (by simp)
  | some R =>
    rw [href] at h
    have hfv : fv =
        FollowupView.mk (formatTimestamp R) (followupRecords (rows.map toRaw)) := by
      have hin := Except.ok.inj h
      exact ((Prod.mk.injEq _ _ _ _).mp hin).1.symm
    subst hfv
    simp only [followupRecords_normalized rows
      (fun r hr => ⟨(hp r hr).1, (hp r hr).2.1, (hp r hr).2.2.1⟩)]
    have hkey_iff : ∀ r ∈ rows, ∀ k : GKey,
        (rowKey r = k ↔ (r.numero = some k.numero ∧ r.nome = some k.nome ∧
          r.status = some k.status)) := by
      intro r hr k
      rcases hp r hr with ⟨h1, h2, h3, -, -⟩
      cases k with
      | mk a b c =>
        simp only [rowKey, GKey.mk.injEq]
        rw [hgetD _ _ h1, hgetD _ _ h2, hgetD _ _ h3]
    have hinj : Function.Injective (fun k : GKey => (k.numero, k.nome, k.status)) := by
      intro k1 k2 hk
      cases k1
      cases k2
      simpa using hk
    refine ⟨?_, ?_, ?_⟩
    · unfold followupSpec
      rw [List.map_map]
      exact List.Nodup.map hinj (nodup_firstSeen _)
    · intro a b c
      unfold followupSpec
      rw [List.map_map]
      constructor
      · intro hmem
        rcases List.mem_map.mp hmem with ⟨k, hk, hkeq⟩
        have hk2 : k = ⟨a, b, c⟩ := by
          cases k
          simpa using hkeq
        subst hk2
        have hmem2 : (⟨a, b, c⟩ : GKey) ∈ rows.map rowKey := (mem_firstSeen _ _).mp hk
        rcases List.mem_map.mp hmem2 with ⟨r, hr, hrk⟩
        exact ⟨r, hr, (hkey_iff r hr ⟨a, b, c⟩).mp hrk⟩
      · rintro ⟨r, hr, h1, h2, h3⟩
        have hrk : rowKey r = ⟨a, b, c⟩ := (hkey_iff r hr ⟨a, b, c⟩).mpr ⟨h1, h2, h3⟩
        have hmem2 : (⟨a, b, c⟩ : GKey) ∈ firstSeen (rows.map rowKey) :=
          (mem_firstSeen _ _).mpr (List.mem_map.mpr ⟨r, hr, hrk⟩)
        exact List.mem_map.mpr ⟨⟨a, b, c⟩, hmem2, rfl⟩
    · intro fr hfr
      unfold followupSpec at hfr
      rcases List.mem_map.mp hfr with ⟨k, hk, hfrk⟩
      have hnum : fr.numero = k.numero := by rw [← hfrk]
      have hnom : fr.nome = k.nome := by rw [← hfrk]
      have hsta : fr.status = k.status := by rw [← hfrk]
      have hfilter : rows.filter (sameGroup fr) =
          rows.filter (fun r => decide (rowKey r = k)) := by
        apply List.filter_congr
        intro r hr
        rw [Bool.eq_iff_iff]
        simp only [sameGroup, Bool.and_eq_true, beq_iff_eq, decide_eq_true_eq,
          hkey_iff r hr k, hnum, hnom, hsta]
        constructor
        · rintro ⟨⟨x1, x2⟩, x3⟩
          exact ⟨x1, x2, x3⟩
        · rintro ⟨x1, x2, x3⟩
          exact ⟨⟨x1, x2⟩, x3⟩
      have hUlt : fr.ultimaS =
          (((rows.filter (fun r => decide (rowKey r = k))).filterMap Row.ultima).max?).map
            formatTimestamp := by rw [← hfrk]
      have hDat : fr.dataS =
          (((rows.filter (fun r => decide (rowKey r = k))).filterMap Row.data).min?).map
            formatTimestamp := by rw [← hfrk]
      have hDsc : fr.diasSemContato =
          match (rows.filterMap Row.ultima).max?,
            ((rows.filter (fun r => decide (rowKey r = k))).filterMap Row.ultima).max? with
          | some r, some m => some (Int.fdiv ((r : Int) - (m : Int)) 1440)
          | _, _ => none := by rw [← hfrk]
      have hDto : fr.diasTotal =
          match (rows.filterMap Row.ultima).max?,
            ((rows.filter (fun r => decide (rowKey r = k))).filterMap Row.data).min? with
          | some r, some m => some (Int.fdiv ((r : Int) - (m : Int)) 1440)
          | _, _ => none := by rw [← hfrk]
      refine ⟨by rw [hUlt, hfilter], by rw [hDat, hfilter], ?_, ?_⟩
      · intro R2 M hR2 hM
        rw [hfilter] at hM
        obtain rfl : R2 = R := (Option.some.inj hR2).symm
        rw [hDsc, href, hM]
      · intro R2 M hR2 hM
        rw [hfilter] at hM
        obtain rfl : R2 = R := (Option.some.inj hR2).symm
        rw [hDto, href, hM]

/-- Claim C6 witness — on `rowsC6` (two rows sharing a key plus one other)
the emitted records have pairwise-distinct key triples. -/
theorem c6_followup_witness :
    ((followupRecords (rowsC6.map toRaw)).map
      (fun fr => (fr.numero, fr.nome, fr.status))).Nodup := by
  have hok : criar_tabela_followup (mkDF rowsC6) = .ok
      (FollowupView.mk (formatTimestamp 9000) (followupRecords (rowsC6.map toRaw)),
       mkDF rowsC6) := by
    rw [criar_mkDF]
    rfl
  exact (c6_followup rowsC6 (by decide) _ _ hok).1

end Dashsema
